import Mathlib

/-!
Shallow embedding of the Merkle Sum Tree implementation in `src/main.rs`
(the `Mimi*` types and their methods), monomorphized at the instantiation
used by the program's `main`: the commitment type `C` is `MimiSumCommitment`
and the proof type `P` is `MimiExclusiveAllotmentProof<MimiSumCommitment>`.

Conventions of the embedding:
- a Rust `u64` amount is a `Nat`; the one arithmetic operation the source
  performs on amounts (`left.amount() + right.amount()` in
  `combine_commitments`) is embedded as addition reduced `% 2 ^ 64`,
  the release-mode wrapping semantics of the unchecked `+`;
- a 32-byte array `[u8; 32]` is a `List Nat` of byte values;
- the fallible vector access `self.leaf_nodes[node_index]` is embedded as
  `List.getElem?`, so an out-of-bounds access (a panic in Rust) is `none`;
- `compute_root_commitment` recurses on intervals that do not shrink
  (for `end - start == 1` the right recursive call repeats the same
  interval), so the Rust recursion is not well-founded; the embedding
  adds an explicit fuel argument, and `none` means the Rust computation
  does not return normally (out-of-bounds panic or non-termination).
-/

/-- Modelled from the spec: the hash primitive. The source calls
`sha2::Sha256`, an external crate that is not part of this repository's
`src/`; the spec treats it as "an opaque external collaborator" — any total
function from byte strings to 32-byte digests ("any collision-resistant
256-bit hash") satisfies the contract, and no theorem in this file depends
on the hash's output values, only on which bytes the source feeds into it.
This executable stand-in mixes the input into a 64-bit accumulator and
expands it to 32 bytes. -/
def sha256 (input : List Nat) : List Nat :=
  let acc := input.foldl
    (fun acc b => ((acc + b + 1) * 6364136223846793005 + 1442695040888963407) % (2 ^ 64))
    (input.length + 1)
  (List.range 32).map (fun i => ((acc + i * 2654435761) / (2 ^ (8 * (i % 8)))) % 256)

/-- `hash_bytes` from `src/main.rs` lines 22-26: the SHA-256 digest of a
32-byte slice. -/
def hash_bytes (slice : List Nat) : List Nat :=
  sha256 slice

/-- `MimiSumCommitment` from `src/main.rs` lines 55-59: an amount together
with a 32-byte digest. Rust's derived `PartialEq` compares both fields. -/
structure MimiSumCommitment where
  amount : Nat
  digest : List Nat
  deriving DecidableEq, Repr

/-- `MimiSumCommitmentWrapper` from `src/main.rs` lines 27-30: a wrapper
around a `MimiSumCommitment`; its derived `PartialEq` compares the inner
values. -/
structure MimiSumCommitmentWrapper where
  inner : MimiSumCommitment
  deriving DecidableEq, Repr

/-- `MimiExclusiveAllotmentProof` from `src/main.rs` lines 71-74,
monomorphized at `C = MimiSumCommitment`: a position and an optional
sibling commitment. -/
structure MimiExclusiveAllotmentProof where
  position : Nat
  sibling : Option MimiSumCommitment
  deriving DecidableEq, Repr

/-- `ExclusiveAllotmentProof::generate_proof` from `src/main.rs`
lines 97-102: packs the position and the (cloned) optional sibling. -/
def MimiExclusiveAllotmentProof.generate_proof (position : Nat)
    (sibling : Option MimiSumCommitment) : MimiExclusiveAllotmentProof :=
  ⟨position, sibling⟩

/-- `compute_merkle_commitment` from `src/main.rs` lines 166-181: hashes
the sibling digest and the root digest separately, then hashes their
concatenation (two `hasher.update` calls hash the concatenation of the two
inputs); the amount is copied from the root commitment. The `position`
argument is accepted but never used by the source body. -/
def compute_merkle_commitment (position : Nat)
    (sibling root_commitment : MimiSumCommitment) : MimiSumCommitmentWrapper :=
  let sibling_digest := hash_bytes sibling.digest
  let root_digest := hash_bytes root_commitment.digest
  ⟨⟨root_commitment.amount, sha256 (sibling_digest ++ root_digest)⟩⟩

/-- `ExclusiveAllotmentProof::verify` from `src/main.rs` lines 88-95: with
no sibling the result is `false`; with a sibling the commitment recomputed
by `compute_merkle_commitment` is compared by value against the claimed
root commitment (the source compares the wrapper's contents with the root
via derived `PartialEq`). Note the source's `verify` takes no leaf amount:
its only inputs are the proof and the claimed root. -/
def MimiExclusiveAllotmentProof.verify (p : MimiExclusiveAllotmentProof)
    (root_commitment : MimiSumCommitment) : Bool :=
  match p.sibling with
  | some sibling =>
      decide ((compute_merkle_commitment p.position sibling root_commitment).inner
        = root_commitment)
  | none => false

/-- `MimiMerkleTree` from `src/main.rs` lines 105-108, monomorphized at
`C = MimiSumCommitment`, `P = MimiExclusiveAllotmentProof`: the leaf
commitments plus the placeholder proof stored at construction. -/
structure MimiMerkleTree where
  leaf_nodes : List MimiSumCommitment
  proof : MimiExclusiveAllotmentProof
  deriving DecidableEq, Repr

/-- `MimiMerkleTree::new` from `src/main.rs` lines 115-131: maps every
value to a leaf commitment whose digest is the all-zero 32-byte array
(`[0; 32]`), with no emptiness check and no hashing of the amount, and
stores the placeholder proof `generate_proof(0, None)`. -/
def MimiMerkleTree.new (values : List Nat) : MimiMerkleTree :=
  ⟨values.map (fun amount => ⟨amount, List.replicate 32 0⟩),
    MimiExclusiveAllotmentProof.generate_proof 0 none⟩

/-- `MimiMerkleTree::combine_commitments` from `src/main.rs` lines 152-159:
the parent amount is the unchecked sum of the child amounts (embedded with
the release-mode wrap `% 2 ^ 64`) and the parent digest is the hash of the
two child digests concatenated — no tag and no amounts enter the hash
input. The source's unused `&self` receiver is dropped. -/
def combine_commitments (left right : MimiSumCommitment) : MimiSumCommitment :=
  ⟨(left.amount + right.amount) % (2 ^ 64), sha256 (left.digest ++ right.digest)⟩

/-- `MimiMerkleTree::compute_root_commitment` from `src/main.rs`
lines 141-150: base case `start == end` reads `leaf_nodes[node_index]`
(embedded as `getElem?`: `none` on the out-of-bounds panic), otherwise
splits at `(start + end) / 2` and combines the two recursive results,
left first. The Rust recursion is not well-founded (a width-one interval
recurses on itself on the right), so the embedding takes fuel; exhausted
fuel yields `none`, as does an out-of-bounds leaf access. -/
def MimiMerkleTree.compute_root_commitment (t : MimiMerkleTree) :
    Nat → Nat → Nat → Nat → Option MimiSumCommitment
  | 0, _, _, _ => none
  | fuel + 1, node_index, start, endIdx =>
    if start = endIdx then
      t.leaf_nodes[node_index]?
    else
      match t.compute_root_commitment fuel (node_index * 2 + 1) start
          ((start + endIdx) / 2) with
      | none => none
      | some left_commitment =>
        match t.compute_root_commitment fuel (node_index * 2 + 2)
            ((start + endIdx) / 2) endIdx with
        | none => none
        | some right_commitment =>
          some (combine_commitments left_commitment right_commitment)

/-- `MimiMerkleTree::commit` from `src/main.rs` lines 133-135: computes the
root commitment over the whole leaf range starting at heap index 0. -/
def MimiMerkleTree.commit (t : MimiMerkleTree) (fuel : Nat) :
    Option MimiSumCommitment :=
  t.compute_root_commitment fuel 0 0 t.leaf_nodes.length

/-- `MimiMerkleTree::generate_proof` from `src/main.rs` lines 161-163:
forwards position and sibling to the proof constructor; the receiver is
unused. -/
def MimiMerkleTree.generate_proof (t : MimiMerkleTree) (position : Nat)
    (sibling : Option MimiSumCommitment) : MimiExclusiveAllotmentProof :=
  MimiExclusiveAllotmentProof.generate_proof position sibling

/-- `MimiMerkleTree::prove` from `src/main.rs` lines 137-139: calls
`generate_proof(position, None)` — no bounds check, and the sibling is
always `None`. -/
def MimiMerkleTree.prove (t : MimiMerkleTree) (position : Nat) :
    MimiExclusiveAllotmentProof :=
  t.generate_proof position none

/-! ## Helper lemmas on the recursion of `compute_root_commitment` -/

/-- On a width-one interval `[s, s+1)` the source recursion never returns:
the midpoint is `s`, so the right recursive call repeats the same interval
and the computation exhausts any amount of fuel (in Rust: out-of-bounds
panic from the left call, or infinite recursion on the right). -/
theorem compute_root_commitment_width_one (t : MimiMerkleTree) :
    ∀ (fuel i s : Nat), t.compute_root_commitment fuel i s (s + 1) = none := by
  intro fuel
  induction fuel with
  | zero => intro i s; rfl
  | succ f ih =>
    intro i s
    have hne : ¬ s = s + 1 := by omega
    have hmid : (s + (s + 1)) / 2 = s := by omega
    rw [MimiMerkleTree.compute_root_commitment, if_neg hne, hmid]
    cases hleft : t.compute_root_commitment f (i * 2 + 1) s s with
    | none => rfl
    | some left_commitment => rw [ih (i * 2 + 2) s]

/-- On every non-empty interval the source recursion never returns: a wider
interval descends (left first) into its left half, which is strictly
smaller, until a width-one interval is reached. -/
theorem compute_root_commitment_none_of_lt (t : MimiMerkleTree) :
    ∀ (fuel i s e : Nat), s < e → t.compute_root_commitment fuel i s e = none := by
  intro fuel
  induction fuel with
  | zero => intro i s e _; rfl
  | succ f ih =>
    intro i s e hlt
    by_cases hone : e = s + 1
    · subst hone; exact compute_root_commitment_width_one t (f + 1) i s
    · have hne : ¬ s = e := by omega
      have hsm : s < (s + e) / 2 := by omega
      rw [MimiMerkleTree.compute_root_commitment, if_neg hne,
        ih (i * 2 + 1) s ((s + e) / 2) hsm]

/-- `commit` never returns a commitment, for any tree value: with zero
leaves the base case reads `leaf_nodes[0]` out of bounds, and with at
least one leaf the recursion over `[0, len)` never returns. -/
theorem commit_eq_none (t : MimiMerkleTree) (fuel : Nat) :
    t.commit fuel = none := by
  rcases Nat.eq_zero_or_pos t.leaf_nodes.length with h0 | hpos
  · rw [MimiMerkleTree.commit, h0]
    cases fuel with
    | zero => rfl
    | succ f =>
      rw [MimiMerkleTree.compute_root_commitment, if_pos rfl]
      exact List.getElem?_eq_none (by omega)
  · exact compute_root_commitment_none_of_lt t fuel 0 0 _ hpos

/-! ## Claims -/

/-- Claim C1: the spec's proof round-trip — `prove(i)` verifying with the
tree's root — fails on the code at balances `[100, 200]`, position 0: the
root computation never returns a commitment, and the proof that `prove`
returns has `sibling = None`, which `verify` rejects against every claimed
root commitment. -/
theorem round_trip_fails_on_code :
    (∀ fuel, (MimiMerkleTree.new [100, 200]).commit fuel = none) ∧
    (∀ root : MimiSumCommitment,
      ((MimiMerkleTree.new [100, 200]).prove 0).verify root = false) :=
  ⟨fun fuel => commit_eq_none (MimiMerkleTree.new [100, 200]) fuel,
   fun _ => rfl⟩

/-- Claim C2: sum conservation fails on the code at the spec's own scenario
`[100, 200, 300, 400, 500]`: `commit` never returns a commitment (in Rust
the recursion indexes `leaf_nodes` out of bounds), so no root with amount
1500 is produced. -/
theorem sum_conservation_fails_on_code :
    ∀ fuel, (MimiMerkleTree.new [100, 200, 300, 400, 500]).commit fuel = none :=
  fun fuel => commit_eq_none (MimiMerkleTree.new [100, 200, 300, 400, 500]) fuel

/-- Claim C3: the combination rule does not bind the children's amounts
(nor any internal tag): the parent digest is exactly the hash of the two
child digests concatenated, and is therefore unchanged when either child's
amount changes. -/
theorem combine_digest_ignores_amounts :
    ∀ (a a' b b' : Nat) (d d' : List Nat),
      (combine_commitments ⟨a, d⟩ ⟨b, d'⟩).digest = sha256 (d ++ d') ∧
      (combine_commitments ⟨a, d⟩ ⟨b, d'⟩).digest
        = (combine_commitments ⟨a', d⟩ ⟨b', d'⟩).digest :=
  fun _ _ _ _ _ _ => ⟨rfl, rfl⟩

/-- Claim C4: for every tree constructed by `new` — any leaf count,
including one leaf — `commit` never returns a commitment in the total
embedding: the recursion's base case reads `leaf_nodes` at a heap-style
index outside the leaf vector (and the width-one right branch repeats
itself), so for every fuel the result is `none`. -/
theorem merkle_commit_never_returns :
    ∀ (values : List Nat) (fuel : Nat),
      (MimiMerkleTree.new values).commit fuel = none :=
  fun values fuel => commit_eq_none (MimiMerkleTree.new values) fuel

/-- Claim C5: `combine_commitments` adds amounts with the unchecked `+`:
the embedded release-mode semantics wraps modulo `2 ^ 64`, and at
`left.amount = 2 ^ 64 - 1`, `right.amount = 1` the parent amount is 0 —
no `AmountOverflow` error exists anywhere in the code. -/
theorem combine_amount_wraps :
    (∀ left right : MimiSumCommitment,
      (combine_commitments left right).amount
        = (left.amount + right.amount) % (2 ^ 64)) ∧
    (combine_commitments ⟨2 ^ 64 - 1, List.replicate 32 0⟩
      ⟨1, List.replicate 32 0⟩).amount = 0 := by
  constructor
  · intro left right; rfl
  · show (2 ^ 64 - 1 + 1) % 2 ^ 64 = 0
    norm_num

/-- Claim C6: building from the empty balance sequence does not fail:
`new([])` returns a tree with zero leaf commitments (and the placeholder
proof), with no `EmptyInput` error anywhere in the code. -/
theorem new_empty_returns_tree :
    MimiMerkleTree.new [] = ⟨[], ⟨0, none⟩⟩ :=
  rfl

/-- Claim C7: `prove` performs no bounds check: for every balance list and
every position — in particular the out-of-range position 1 of the
one-leaf tree `[100]` — it returns the proof `⟨position, none⟩` instead of
a `PositionOutOfRange` error. -/
theorem prove_never_checks_position :
    (∀ (values : List Nat) (position : Nat),
      (MimiMerkleTree.new values).prove position = ⟨position, none⟩) ∧
    (MimiMerkleTree.new [100]).prove 1 = ⟨1, none⟩ :=
  ⟨fun _ _ => rfl, rfl⟩

/-- Claim C8: `verify` is total (a total Lean function on all proofs and
roots; the source body performs no fallible operation) and returns `false`
on any mismatch: `false` whenever the sibling entry is missing, and
`false` whenever the recomputed commitment differs from the claimed root.
The leaf-amount binder mirrors the claim's quantification; the source's
`verify` takes no leaf amount. -/
theorem verify_total_false_on_mismatch :
    ∀ (p : MimiExclusiveAllotmentProof) (leaf_amount : Nat)
      (root : MimiSumCommitment),
      (p.sibling = none → p.verify root = false) ∧
      (∀ sib, p.sibling = some sib →
        (compute_merkle_commitment p.position sib root).inner ≠ root →
        p.verify root = false) := by
  intro p _ root
  constructor
  · intro h
    simp [MimiExclusiveAllotmentProof.verify, h]
  · intro sib hs hne
    simp [MimiExclusiveAllotmentProof.verify, hs, hne]

/-- Witness for claim C8 at a concrete proof with no sibling entry. -/
theorem verify_total_witness :
    MimiExclusiveAllotmentProof.verify ⟨3, none⟩ ⟨0, List.replicate 32 0⟩ = false :=
  (verify_total_false_on_mismatch ⟨3, none⟩ 7 ⟨0, List.replicate 32 0⟩).1 rfl

/-- Claim C10: `prove` always forwards `None` as the sibling, `verify`
rejects every proof whose sibling is `None`, and hence every proof
produced by `prove` fails verification against every root commitment. -/
theorem prove_sibling_none_never_verifies :
    ∀ (t : MimiMerkleTree) (position : Nat) (root : MimiSumCommitment),
      (t.prove position).sibling = none ∧
      (t.prove position).verify root = false ∧
      (∀ p : MimiExclusiveAllotmentProof,
        p.sibling = none → p.verify root = false) := by
  intro t position root
  refine ⟨rfl, rfl, ?_⟩
  intro p h
  simp [MimiExclusiveAllotmentProof.verify, h]

/-- Witness for claim C10 at the concrete tree over `[100, 200]`,
position 0, a concrete claimed root, and a concrete sibling-less proof. -/
theorem prove_never_verifies_witness :
    ((MimiMerkleTree.new [100, 200]).prove 0).verify ⟨300, List.replicate 32 0⟩
      = false ∧
    MimiExclusiveAllotmentProof.verify ⟨5, none⟩ ⟨300, List.replicate 32 0⟩
      = false := by
  have h := prove_sibling_none_never_verifies (MimiMerkleTree.new [100, 200]) 0
    ⟨300, List.replicate 32 0⟩
  exact ⟨h.2.1, h.2.2 ⟨5, none⟩ rfl⟩

/-- Claim C9: the single-leaf property fails on the code at `[42]`: the
leaf commitment built by `new` has the all-zero digest rather than a
hash of the amount, and `commit` never returns that (or any) commitment —
in Rust it reads `leaf_nodes[1]` out of bounds. -/
theorem single_leaf_root_fails_on_code :
    (MimiMerkleTree.new [42]).leaf_nodes = [⟨42, List.replicate 32 0⟩] ∧
    (∀ fuel, (MimiMerkleTree.new [42]).commit fuel = none) :=
  ⟨rfl, fun fuel => commit_eq_none (MimiMerkleTree.new [42]) fuel⟩
